import Mathlib

/-!
Shallow embedding of the ViewSB capture-to-display pipeline core:
the OpenVizsla capture backend (`viewsb/backends/openvizsla.py`) and the
frontend / plugin-enumeration layer (`viewsb/frontend.py`).

Python effects are made explicit: device interactions become call traces
paired with an optional propagated exception, the packet channel becomes a
FIFO list, and class attributes become structure fields.
-/

namespace ViewSB

/-! ## Capture device model (external collaborator of `OpenVizslaBackend.run`)

The backend talks to an `OVDevice` through four calls.  A `DeviceStub`
says which calls raise; `run` below is the embedding of the Python body

    self.ov_device.open(reconfigure_fpga=True)
    try:
        self.ov_device.run_capture(...)
    finally:
        self.ov_device.ensure_capture_stopped()
        self.ov_device.close()
-/

/-- One call made by the backend on its capture device. -/
inductive DevCall where
  | openDev
  | runCapture
  | ensureCaptureStopped
  | closeDev
deriving DecidableEq, Repr

/-- The exceptions a device stub can raise, tagged by their source call. -/
inductive PyExn where
  | openError
  | captureError
  | stopError
  | closeError
deriving DecidableEq, Repr

/-- A capture-device stub: which of its calls raise an exception. -/
structure DeviceStub where
  openRaises : Bool
  runCaptureRaises : Bool
  ensureRaises : Bool
  closeRaises : Bool
deriving DecidableEq, Repr

/-- Result of running a fragment of Python: the trace of device calls it
performed, and the exception it propagates (if any). -/
abbrev PyRun := List DevCall × Option PyExn

/-- A single device call: it appears in the trace, and raises iff the stub
says so. -/
def devCall (c : DevCall) (raises : Bool) (e : PyExn) : PyRun :=
  ([c], if raises then some e else none)

/-- Python sequencing: the second fragment runs only when the first one did
not raise. -/
def pySeq : PyRun → PyRun → PyRun
  | (tr, some e), _ => (tr, some e)
  | (tr, none), (tr2, r) => (tr ++ tr2, r)

/-- Python `try/finally`: the finaliser always runs; an exception raised by
the finaliser replaces the body's outcome, otherwise the body's outcome
(normal or exceptional) is kept. -/
def pyTryFinally : PyRun → PyRun → PyRun
  | (trb, _), (trf, some ef) => (trb ++ trf, some ef)
  | (trb, rb), (trf, none) => (trb ++ trf, rb)

/-- Embedding of `OpenVizslaBackend.run` (openvizsla.py lines 138-149):
open the device, then capture inside a `try` whose `finally` stops the
capture and closes the device. -/
def OpenVizslaBackend.run (d : DeviceStub) : PyRun :=
  pySeq (devCall .openDev d.openRaises .openError)
    (pyTryFinally (devCall .runCapture d.runCaptureRaises .captureError)
      (pySeq (devCall .ensureCaptureStopped d.ensureRaises .stopError)
             (devCall .closeDev d.closeRaises .closeError)))

/-! ## Capture speeds and argument parsing (openvizsla.py lines 84-114) -/

/-- The `OVCaptureUSBSpeed` enumeration from the `openvizsla` driver. -/
inductive OVCaptureUSBSpeed where
  | HIGH
  | FULL
  | LOW
deriving DecidableEq, Repr

/-- Embedding of `OpenVizslaBackend.speed_from_string`: dictionary lookup
returning `None` (here `none`) on a missing key. -/
def OpenVizslaBackend.speed_from_string (s : String) : Option OVCaptureUSBSpeed :=
  if s = "high" then some .HIGH
  else if s = "full" then some .FULL
  else if s = "low" then some .LOW
  else none

/-- Outcome of one `argparse.parse_known_args` run for the single option
`--speed` (value converted by `speed_from_string`): the final converted
value of `--speed`, and the tokens argparse did not recognise, or an
argparse usage error when `--speed` is given without a value. -/
inductive ArgparseOutcome where
  | ok (speed : Option OVCaptureUSBSpeed) (leftover : List String)
  | usageError
deriving DecidableEq, Repr

/-- The argparse negative-number pattern (regex `-\d+` or `-\d*.\d+`):
a minus sign followed by one or more digits, or by zero or more digits,
a dot and one or more digits. -/
def negativeNumberMatch (t : String) : Bool :=
  match t.data with
  | '-' :: rest =>
      let ds := rest.takeWhile Char.isDigit
      let tail := rest.dropWhile Char.isDigit
      match tail with
      | [] => !ds.isEmpty
      | '.' :: frac => !frac.isEmpty && frac.all Char.isDigit
      | _ => false
  | _ => false

/-- Argparse's classification of a token standing in option-value
position, for a parser whose prefix character is minus and which has no
negative-number-looking option strings: the token is an option (never
consumed as a value) when it starts with the prefix character, is longer
than one character, does not look like a negative number and contains no
space.  An option-like token right after `--speed` makes argparse fail
with the expected-one-argument usage error before the `type` converter
runs. -/
def looks_like_option (t : String) : Bool :=
  match t.data with
  | '-' :: _ :: _ => !negativeNumberMatch t && !(t.data.contains ' ')
  | _ => false

/-- Model of `parse_known_args` on a parser whose one option is
`--speed` with `type=speed_from_string`: scan the tokens; each exact
`--speed v` pair with a non-option-like `v` updates the (converted)
value, while a `--speed` followed by an option-like token, or a trailing
`--speed` with no value at all, is a usage error raised before the
converter runs; every other token is left over.  (Prefix abbreviations
of `--speed` and the `--speed=v` form are outside the model's scope.)
`acc` holds the current converted value (argparse applies `type` to the
string default, so scanning starts from `speed_from_string "high"`);
`left` accumulates the leftover tokens in reverse. -/
def parse_known_args_speed :
    List String → Option OVCaptureUSBSpeed → List String → ArgparseOutcome
  | [], acc, left => .ok acc left.reverse
  | [t], acc, left =>
      if t = "--speed" then .usageError
      else .ok acc (t :: left).reverse
  | t :: v :: rest, acc, left =>
      if t = "--speed" then
        if looks_like_option v then .usageError
        else parse_known_args_speed rest (OpenVizslaBackend.speed_from_string v) left
      else
        parse_known_args_speed (v :: rest) acc (t :: left)

/-- Outcome of `OpenVizslaBackend.parse_arguments`: either the tuple of
constructor inputs (the sole entry is the capture speed) together with the
leftover tokens, or `sys.exit(errno.EINVAL)` (the InvalidArgument failure),
or an argparse usage error. -/
inductive ParseOutcome where
  | ok (capture_speed : OVCaptureUSBSpeed) (leftover : List String)
  | invalidArgument
  | usageError
deriving DecidableEq, Repr

/-- Embedding of `OpenVizslaBackend.parse_arguments` (lines 98-114).
`args` is the method's parameter; `argv` is the process's `sys.argv[1:]`.
The code calls `parser.parse_known_args()` with no argument, so argparse
parses `argv`, not `args`; when the converted speed is `None` the code
exits with `errno.EINVAL`. -/
def OpenVizslaBackend.parse_arguments (args argv : List String) : ParseOutcome :=
  match parse_known_args_speed argv (OpenVizslaBackend.speed_from_string "high") [] with
  | .usageError => .usageError
  | .ok none _ => .invalidArgument
  | .ok (some sp) left => .ok sp left

/-- Embedding of the base-class `ViewSBEnumerableFromUI.parse_arguments`
(frontend.py lines 44-55): recognises nothing, returns an empty tuple of
constructor inputs and the whole input sequence as leftover. -/
def ViewSBEnumerableFromUI.parse_arguments (args : List String) :
    Unit × List String :=
  ((), args)

/-- The constructed backend state relevant to parsing: the capture speed
stored by `OpenVizslaBackend.__init__` (line 128). -/
structure OpenVizslaBackendObj where
  capture_speed : OVCaptureUSBSpeed
deriving DecidableEq, Repr

/-- The registry-side step that follows `parse_arguments`: a device object
is constructed only when parsing succeeded. -/
def instantiate_from_arguments (args argv : List String) :
    Option OpenVizslaBackendObj :=
  match OpenVizslaBackend.parse_arguments args argv with
  | .ok sp _ => some ⟨sp⟩
  | _ => none

/-! ## Event sink (openvizsla.py lines 18-60)

`ViewSBEventSink` receives raw capture events `(timestamp, raw_packet,
flags)` from the driver, drops empty payloads, builds a `USBPacket`,
applies the optional suppression callback and emits the survivors via
`backend.emit_packet`.  We model the emission effect as the list of
packets handed to `emit_packet`. -/

/-- The packet built from a raw capture event (payload bytes and the
capture timestamp; flags are not yet converted by the code, see the TODO
at line 55). -/
structure USBPacket where
  payload : List Nat
  timestamp : Int
deriving DecidableEq, Repr

/-- Embedding of `USBPacket.from_raw_packet(raw_packet, timestamp=...)`. -/
def USBPacket.from_raw_packet (raw_packet : List Nat) (timestamp : Int) :
    USBPacket :=
  ⟨raw_packet, timestamp⟩

/-- The value stored in `suppress_packet_callback`: Python `None`, a
non-callable object, or a callable predicate. -/
inductive SuppressCallback where
  | noneVal
  | nonCallable
  | callback (f : USBPacket → Bool)

/-- Embedding of `ViewSBEventSink._should_be_suppressed`: run the callback
iff `callable(self.suppress_packet_callback)`, else `False`. -/
def ViewSBEventSink.should_be_suppressed (cb : SuppressCallback)
    (packet : USBPacket) : Bool :=
  match cb with
  | .callback f => f packet
  | _ => false

/-- Embedding of `ViewSBEventSink.handle_usb_packet`: return without
effect when `not len(raw_packet)`; otherwise build the packet and emit it
unless it should be suppressed.  The result is the list of packets emitted
by this one call (empty or a singleton). -/
def ViewSBEventSink.handle_usb_packet (cb : SuppressCallback)
    (timestamp : Int) (raw_packet : List Nat) (flags : Nat) :
    List USBPacket :=
  if raw_packet.length = 0 then []
  else
    let packet := USBPacket.from_raw_packet raw_packet timestamp
    if ViewSBEventSink.should_be_suppressed cb packet then []
    else [packet]

/-- One raw capture event as delivered by the OpenVizsla driver. -/
structure RawEvent where
  timestamp : Int
  raw_packet : List Nat
  flags : Nat
deriving DecidableEq, Repr

/-- The packets emitted toward the channel over a whole stream of raw
capture events, in delivery order. -/
def ViewSBEventSink.handle_event_stream (cb : SuppressCallback)
    (events : List RawEvent) : List USBPacket :=
  match events with
  | [] => []
  | e :: rest =>
      ViewSBEventSink.handle_usb_packet cb e.timestamp e.raw_packet e.flags
        ++ ViewSBEventSink.handle_event_stream cb rest

/-- An event survives the sink iff its payload is non-empty and the packet
built from it is not suppressed. -/
def RawEvent.survives (cb : SuppressCallback) (e : RawEvent) : Bool :=
  !e.raw_packet.isEmpty &&
    !(ViewSBEventSink.should_be_suppressed cb
        (USBPacket.from_raw_packet e.raw_packet e.timestamp))

/-! ## Frontend communications (frontend.py lines 126-231)

The analyzer-to-frontend channel is a FIFO queue, modelled as a list with
its head at the front.  `read_packet` raises `queue.Empty` on an empty
queue; `fetch_packet_from_analyzer` catches that and returns `None`. -/

/-- Embedding of `ViewSBFrontend.fetch_packet_from_analyzer`: pop the
front packet, or catch `queue.Empty` and return `None`.  Returns the
fetched packet (if any) and the remaining queue. -/
def ViewSBFrontend.fetch_packet_from_analyzer (q : List USBPacket) :
    Option USBPacket × List USBPacket :=
  match q with
  | [] => (none, [])
  | p :: rest => (some p, rest)

/-- Embedding of `ViewSBFrontend.handle_communications`: loop fetching
packets and dispatching each to `handle_incoming_packet` until a fetch
yields `None`.  Returns the packets dispatched, in dispatch order, and
the remaining queue on return. -/
def ViewSBFrontend.handle_communications (q : List USBPacket) :
    List USBPacket × List USBPacket :=
  match q with
  | [] => ([], [])
  | p :: rest =>
      let out := ViewSBFrontend.handle_communications rest
      (p :: out.1, out.2)

/-- What the frontend main loop does in one step. -/
inductive FrontendAction where
  | drain
  | terminate
deriving DecidableEq, Repr

/-- Embedding of `ViewSBFrontend.run`: while the termination event is not
set, call `handle_communications`; once it is observed set, call
`handle_termination` and return.  `sig i` is the value the termination
event shows at the i-th check; `fuel` bounds the number of loop
iterations we unfold, and the result is `none` when the loop has not
returned within `fuel` checks. -/
def ViewSBFrontend.run (sig : Nat → Bool) :
    Nat → Nat → Option (List FrontendAction)
  | 0, _ => none
  | fuel + 1, i =>
      if sig i then some [.terminate]
      else (ViewSBFrontend.run sig fuel (i + 1)).map (fun tr => .drain :: tr)

/-! ## IPC setup (frontend.py lines 144-160) -/

/-- The frontend attributes touched by `set_up_ipc`.  Queues, events and
streams are modelled by identifiers; `none` in an attribute means the
attribute has not been assigned. -/
structure FrontendState where
  data_queue : Option Nat
  termination_event : Option Nat
  stdin : Option Nat
deriving DecidableEq, Repr

/-- The process-global state read and written by `set_up_ipc`:
`sys.stdin`. -/
structure GlobalState where
  sys_stdin : Nat
deriving DecidableEq, Repr

/-- Embedding of `ViewSBFrontend.set_up_ipc`: store the queue and the
termination event on the frontend; when the `stdin` argument is truthy
(`some` — Python streams are truthy, and the default is `None`), assign
it to both `self.stdin` and `sys.stdin`. -/
def ViewSBFrontend.set_up_ipc (st : FrontendState) (g : GlobalState)
    (data_queue termination_event : Nat) (stdin : Option Nat) :
    FrontendState × GlobalState :=
  let st1 : FrontendState :=
    { st with
      data_queue := some data_queue
      termination_event := some termination_event }
  match stdin with
  | some s => ({ st1 with stdin := some s }, { g with sys_stdin := s })
  | none => (st1, g)

/-! ## Subclass enumeration (frontend.py lines 58-92)

`ViewSBEnumerableFromUI.all_named_subclasses` walks the live class
hierarchy: for each direct subclass, add it when its `UI_NAME` is truthy,
and recurse into its subclasses either way.  We model a class by an
identity, its `UI_NAME` attribute and its list of direct subclasses.
Python's `set` keeps each class at most once; we model the set as a
deduplicated list. -/

/-- The identity-relevant attributes of one class: an object identity and
the `UI_NAME` attribute (`none` models Python `None`). -/
structure ClassInfo where
  id : Nat
  ui_name : Option String
deriving DecidableEq, Repr

/-- A class together with its (transitively reachable) subclass
hierarchy: `node info children` has direct subclasses `children`. -/
inductive ClassTree where
  | node (info : ClassInfo) (children : List ClassTree)
deriving Repr

/-- The class's own attributes. -/
def ClassTree.info : ClassTree → ClassInfo
  | .node i _ => i

/-- The class's direct subclasses (`cls.__subclasses__()`). -/
def ClassTree.children : ClassTree → List ClassTree
  | .node _ cs => cs

/-- Python truthiness of a `UI_NAME` value: `None` and the empty string
are falsy, every other string is truthy. -/
def truthyName : Option String → Bool
  | some s => !s.isEmpty
  | none => false

mutual

/-- Embedding of `ViewSBEnumerableFromUI.all_named_subclasses` before set
deduplication: for each direct subclass, include it when its `UI_NAME` is
truthy, then recurse into its subclasses. -/
def ClassTree.namedDescendants : ClassTree → List ClassInfo
  | .node _ children => namedDescendantsOf children

/-- The per-subclass-list worker of `namedDescendants`. -/
def namedDescendantsOf : List ClassTree → List ClassInfo
  | [] => []
  | t :: ts =>
      (if truthyName t.info.ui_name then [t.info] else [])
        ++ t.namedDescendants ++ namedDescendantsOf ts

end

/-- Embedding of `all_named_subclasses` as a set: the walk above with each
class kept at most once. -/
def ClassTree.all_named_subclasses (c : ClassTree) : List ClassInfo :=
  c.namedDescendants.dedup

/-- Embedding of `ViewSBEnumerableFromUI.get_subclass_from_name`: scan
`all_named_subclasses` and return the first subclass whose `UI_NAME`
equals `name` exactly, or `None` when nothing matches. -/
def ClassTree.get_subclass_from_name (c : ClassTree) (name : String) :
    Option ClassInfo :=
  c.all_named_subclasses.find? (fun i => i.ui_name = some name)

mutual

/-- Every strict transitive subclass of the class, named or not (the
reference set discovery is compared against). -/
def ClassTree.descendantInfos : ClassTree → List ClassInfo
  | .node _ children => descendantInfosOf children

/-- The per-subclass-list worker of `descendantInfos`. -/
def descendantInfosOf : List ClassTree → List ClassInfo
  | [] => []
  | t :: ts => t.info :: (t.descendantInfos ++ descendantInfosOf ts)

end

/-! ## Helper lemmas -/

/-- One sink call emits one packet when the event survives (non-empty and
not suppressed) and none otherwise. -/
theorem handle_usb_packet_length (cb : SuppressCallback) (e : RawEvent) :
    (ViewSBEventSink.handle_usb_packet cb e.timestamp e.raw_packet e.flags).length
      = if RawEvent.survives cb e then 1 else 0 := by
  obtain ⟨t, raw, fl⟩ := e
  unfold ViewSBEventSink.handle_usb_packet RawEvent.survives
  by_cases h : raw.length = 0
  · simp [h, List.isEmpty_iff, List.length_eq_zero.mp h]
  · have hne : raw ≠ [] := fun hh => h (by simp [hh])
    by_cases hs : ViewSBEventSink.should_be_suppressed cb
        (USBPacket.from_raw_packet raw t) = true
    · simp [h, hs, hne, List.isEmpty_iff]
    · simp [h, hs, hne, List.isEmpty_iff]

/-! ## Claims -/

/-- C1: on an opened capture device (open does not raise) whose
capture-stop call itself succeeds, every exit path of
`OpenVizslaBackend.run` — the normal return and the path where
`run_capture` raises — calls `ensure_capture_stopped` exactly once and
`close` exactly once, and a `run_capture` failure still propagates out of
`run`. -/
theorem C1_run_scoped_release (d : DeviceStub)
    (hopen : d.openRaises = false) (hstop : d.ensureRaises = false) :
    ((OpenVizslaBackend.run d).1.count DevCall.ensureCaptureStopped = 1) ∧
    ((OpenVizslaBackend.run d).1.count DevCall.closeDev = 1) ∧
    (d.runCaptureRaises = true → (OpenVizslaBackend.run d).2 ≠ none) := by
  obtain ⟨o, r, s, c⟩ := d
  revert hopen hstop
  cases o <;> cases r <;> cases s <;> cases c <;> decide

/-- Witness for C1: the capture-device stub that raises on `run_capture`
still sees exactly one `ensure_capture_stopped` and one `close`. -/
theorem C1_run_scoped_release_witness :
    ((OpenVizslaBackend.run (DeviceStub.mk false true false false)).1.count
        DevCall.ensureCaptureStopped = 1) ∧
    ((OpenVizslaBackend.run (DeviceStub.mk false true false false)).1.count
        DevCall.closeDev = 1) ∧
    ((DeviceStub.mk false true false false).runCaptureRaises = true →
        (OpenVizslaBackend.run (DeviceStub.mk false true false false)).2 ≠ none) :=
  C1_run_scoped_release (DeviceStub.mk false true false false) rfl rfl

/-- C2 (code bug): `OpenVizslaBackend.parse_arguments` ignores its `args`
parameter — `parser.parse_known_args()` is called without arguments, so
argparse reads `sys.argv` instead.  The result is the same for every
`args` value, and on the failing input `args = ["--speed", "low"]` with an
empty `sys.argv` the recognised option in `args` is neither consumed nor
returned as leftover.  The base-class `parse_arguments` does consume from
`args` (recognising nothing and leaving everything over). -/
theorem C2_args_parameter_ignored :
    (∀ args args1 argv, OpenVizslaBackend.parse_arguments args argv
        = OpenVizslaBackend.parse_arguments args1 argv) ∧
    OpenVizslaBackend.parse_arguments ["--speed", "low"] []
        = ParseOutcome.ok OVCaptureUSBSpeed.HIGH [] ∧
    ViewSBEnumerableFromUI.parse_arguments ["--speed", "low"]
        = ((), ["--speed", "low"]) :=
  ⟨fun _ _ _ => rfl, rfl, rfl⟩

/-- C3 counterexample: the speed string "--foo" is none of "high",
"full", "low", yet parsing it does not fail with the InvalidArgument
(`sys.exit(errno.EINVAL)`) outcome — argparse classifies the option-like
value token as an option and exits with a usage error before the speed
converter runs. -/
theorem C3_speed_parsing_counterexample :
    ("--foo" ≠ "high" ∧ "--foo" ≠ "full" ∧ "--foo" ≠ "low") ∧
    OpenVizslaBackend.parse_arguments [] ["--speed", "--foo"]
      = ParseOutcome.usageError ∧
    OpenVizslaBackend.parse_arguments [] ["--speed", "--foo"]
      ≠ ParseOutcome.invalidArgument := by
  refine ⟨by decide, by decide, by decide⟩

/-- C3 (amended): parsing a `--speed` value of "high", "full" or "low"
succeeds with the corresponding `OVCaptureUSBSpeed` member as the sole
constructor input; any other value that argparse accepts as an option
value (a non-option-like token) is an InvalidArgument failure
(`sys.exit(errno.EINVAL)`), while an option-like value token is an
argparse usage error raised before the converter runs; in every failing
case no backend object is constructed. -/
theorem C3_speed_parsing (s : String) (args : List String) :
    (looks_like_option s = false →
      (OpenVizslaBackend.parse_arguments args ["--speed", s]
          = if s = "high" then .ok .HIGH []
            else if s = "full" then .ok .FULL []
            else if s = "low" then .ok .LOW []
            else .invalidArgument) ∧
      (instantiate_from_arguments args ["--speed", s]
          = if s = "high" then some ⟨.HIGH⟩
            else if s = "full" then some ⟨.FULL⟩
            else if s = "low" then some ⟨.LOW⟩
            else none)) ∧
    (looks_like_option s = true →
      OpenVizslaBackend.parse_arguments args ["--speed", s]
        = ParseOutcome.usageError ∧
      instantiate_from_arguments args ["--speed", s] = none) := by
  constructor
  · intro hopt
    have hk : parse_known_args_speed ["--speed", s]
        (OpenVizslaBackend.speed_from_string "high") []
        = .ok (OpenVizslaBackend.speed_from_string s) [] := by
      simp [parse_known_args_speed, hopt]
    have h : OpenVizslaBackend.parse_arguments args ["--speed", s]
        = match OpenVizslaBackend.speed_from_string s with
          | some sp => .ok sp []
          | none => .invalidArgument := by
      unfold OpenVizslaBackend.parse_arguments
      rw [hk]
      cases OpenVizslaBackend.speed_from_string s <;> rfl
    have h2 : instantiate_from_arguments args ["--speed", s]
        = match OpenVizslaBackend.speed_from_string s with
          | some sp => some ⟨sp⟩
          | none => none := by
      unfold instantiate_from_arguments
      rw [h]
      cases OpenVizslaBackend.speed_from_string s <;> rfl
    rw [h, h2]
    unfold OpenVizslaBackend.speed_from_string
    by_cases h1 : s = "high" <;> by_cases hf : s = "full" <;>
      by_cases hl : s = "low" <;> simp [h1, hf, hl]
  · intro hopt
    have hk : parse_known_args_speed ["--speed", s]
        (OpenVizslaBackend.speed_from_string "high") []
        = .usageError := by
      simp [parse_known_args_speed, hopt]
    constructor
    · unfold OpenVizslaBackend.parse_arguments
      rw [hk]
    · unfold instantiate_from_arguments OpenVizslaBackend.parse_arguments
      rw [hk]

/-- Witness for C3 at a valid value, "full", and an option-like value,
"-x". -/
theorem C3_speed_parsing_witness :
    (OpenVizslaBackend.parse_arguments [] ["--speed", "full"]
        = ParseOutcome.ok OVCaptureUSBSpeed.FULL [] ∧
      instantiate_from_arguments [] ["--speed", "full"]
        = some ⟨OVCaptureUSBSpeed.FULL⟩) ∧
    (OpenVizslaBackend.parse_arguments [] ["--speed", "-x"]
        = ParseOutcome.usageError ∧
      instantiate_from_arguments [] ["--speed", "-x"] = none) := by
  constructor
  · have h := (C3_speed_parsing "full" []).1 (by decide)
    simpa using h
  · exact (C3_speed_parsing "-x" []).2 (by decide)

/-- C4: a zero-length raw capture event emits nothing, and over any event
stream the number of packets emitted equals the number of non-empty,
non-suppressed events. -/
theorem C4_empty_events_filtered (cb : SuppressCallback)
    (events : List RawEvent) (t : Int) (fl : Nat) :
    ViewSBEventSink.handle_usb_packet cb t [] fl = [] ∧
    (ViewSBEventSink.handle_event_stream cb events).length
      = (events.filter (RawEvent.survives cb)).length := by
  refine ⟨rfl, ?_⟩
  induction events with
  | nil => rfl
  | cons e rest ih =>
      rw [ViewSBEventSink.handle_event_stream, List.length_append, ih,
        List.filter_cons]
      by_cases h : RawEvent.survives cb e
      · simp [h, handle_usb_packet_length, Nat.add_comm]
      · simp [h, handle_usb_packet_length]

/-- C5: a non-empty packet is emitted iff the suppression decision is
false — with a callable predicate the packet is emitted exactly when the
predicate returns false, and with an absent or non-callable predicate the
packet is always emitted. -/
theorem C5_suppression (f : USBPacket → Bool) (t : Int) (fl : Nat)
    (raw : List Nat) (h : raw ≠ []) :
    (ViewSBEventSink.handle_usb_packet (.callback f) t raw fl
      = if f (USBPacket.from_raw_packet raw t) = true then []
        else [USBPacket.from_raw_packet raw t]) ∧
    ViewSBEventSink.handle_usb_packet .noneVal t raw fl
      = [USBPacket.from_raw_packet raw t] ∧
    ViewSBEventSink.handle_usb_packet .nonCallable t raw fl
      = [USBPacket.from_raw_packet raw t] := by
  have hl : raw.length ≠ 0 := by simpa using h
  unfold ViewSBEventSink.handle_usb_packet ViewSBEventSink.should_be_suppressed
  simp [hl]

/-- Witness for C5 at a concrete packet and an always-true predicate. -/
theorem C5_suppression_witness :
    (ViewSBEventSink.handle_usb_packet (.callback (fun _ => true)) 0 [1] 0
      = if (fun (_ : USBPacket) => true) (USBPacket.from_raw_packet [1] 0) = true
        then [] else [USBPacket.from_raw_packet [1] 0]) ∧
    ViewSBEventSink.handle_usb_packet .noneVal 0 [1] 0
      = [USBPacket.from_raw_packet [1] 0] ∧
    ViewSBEventSink.handle_usb_packet .nonCallable 0 [1] 0
      = [USBPacket.from_raw_packet [1] 0] :=
  C5_suppression (fun _ => true) 0 0 [1] (by decide)

/-- C6: an empty poll yields `none` rather than an error, and one
`handle_communications` call dispatches every packet of the channel to
the handler exactly once, in pop order, returning exactly when a poll
yields `none` (with the channel drained). -/
theorem C6_drain (q : List USBPacket) :
    ViewSBFrontend.fetch_packet_from_analyzer [] = (none, []) ∧
    ViewSBFrontend.handle_communications q = (q, []) := by
  refine ⟨rfl, ?_⟩
  induction q with
  | nil => rfl
  | cons p rest ih => simp [ViewSBFrontend.handle_communications, ih]

/-- C7: whenever `ViewSBFrontend.run` returns, its action trace is some
number of drain steps — one per check at which the termination signal was
unset — followed by a single `handle_termination` call performed right
after the first check at which the signal was observed set; in
particular the cleanup hook runs exactly once, never before the signal is
observed, and the loop drains while the signal is unset. -/
theorem C7_run_terminates_once (sig : Nat → Bool) (fuel i : Nat)
    (tr : List FrontendAction)
    (h : ViewSBFrontend.run sig fuel i = some tr) :
    (∃ k, tr = List.replicate k FrontendAction.drain ++ [FrontendAction.terminate] ∧
      (∀ j, j < k → sig (i + j) = false) ∧ sig (i + k) = true) ∧
    tr.count FrontendAction.terminate = 1 := by
  have main : ∀ fuel i tr, ViewSBFrontend.run sig fuel i = some tr →
      ∃ k, tr = List.replicate k FrontendAction.drain ++ [FrontendAction.terminate] ∧
        (∀ j, j < k → sig (i + j) = false) ∧ sig (i + k) = true := by
    intro fuel
    induction fuel with
    | zero => intro i tr h; simp [ViewSBFrontend.run] at h
    | succ n ih =>
        intro i tr h
        rw [ViewSBFrontend.run] at h
        by_cases hs : sig i = true
        · rw [if_pos hs] at h
          refine ⟨0, ?_, ?_, ?_⟩
          · simpa using (Option.some_inj.mp h).symm
          · intro j hj; omega
          · simpa using hs
        · rw [if_neg hs] at h
          obtain ⟨tr1, htr1, hmap⟩ := Option.map_eq_some'.mp h
          obtain ⟨k, hk, hfalse, htrue⟩ := ih (i + 1) tr1 htr1
          refine ⟨k + 1, ?_, ?_, ?_⟩
          · rw [← hmap, hk, List.replicate_succ]
            simp
          · intro j hj
            cases j with
            | zero => simpa using eq_false_of_ne_true hs
            | succ j1 =>
                have : i + 1 + j1 = i + (j1 + 1) := by omega
                exact this ▸ hfalse j1 (by omega)
          · have : i + 1 + k = i + (k + 1) := by omega
            exact this ▸ htrue
  obtain ⟨k, hk, hfalse, htrue⟩ := main fuel i tr h
  refine ⟨⟨k, hk, hfalse, htrue⟩, ?_⟩
  rw [hk]
  simp [List.count_append, List.count_replicate]

/-- Witness for C7: with a signal that becomes set at the third check,
`run` with fuel 5 returns the trace drain, drain, terminate. -/
theorem C7_run_terminates_once_witness :
    (∃ k, ([FrontendAction.drain, FrontendAction.drain, FrontendAction.terminate]
        : List FrontendAction)
        = List.replicate k FrontendAction.drain ++ [FrontendAction.terminate] ∧
      (∀ j, j < k → (fun n => decide (2 ≤ n)) (0 + j) = false) ∧
      (fun n => decide (2 ≤ n)) (0 + k) = true) ∧
    ([FrontendAction.drain, FrontendAction.drain, FrontendAction.terminate]
      : List FrontendAction).count FrontendAction.terminate = 1 :=
  C7_run_terminates_once (fun n => decide (2 ≤ n)) 5 0
    [FrontendAction.drain, FrontendAction.drain, FrontendAction.terminate] (by rfl)

/-- C8: `get_subclass_from_name` returns a registered named subclass whose
`UI_NAME` is an exact (case-sensitive) match when one exists, and returns
`None` — a value, not an exception — whenever no registered named
subclass carries that exact name. -/
theorem C8_get_subclass_from_name (c : ClassTree) (name : String) :
    (∀ r, c.get_subclass_from_name name = some r →
        r ∈ c.all_named_subclasses ∧ r.ui_name = some name) ∧
    ((∃ i ∈ c.all_named_subclasses, i.ui_name = some name) →
        ∃ r, c.get_subclass_from_name name = some r ∧ r.ui_name = some name) ∧
    ((∀ i ∈ c.all_named_subclasses, i.ui_name ≠ some name) →
        c.get_subclass_from_name name = none) := by
  refine ⟨?_, ?_, ?_⟩
  · intro r hr
    refine ⟨List.mem_of_find?_eq_some hr, ?_⟩
    have := List.find?_some hr
    simpa using this
  · intro ⟨i, hi, hname⟩
    have hsome : (c.all_named_subclasses.find?
        (fun j => j.ui_name = some name)).isSome := by
      rw [List.find?_isSome]
      exact ⟨i, hi, by simpa using hname⟩
    obtain ⟨r, hr⟩ := Option.isSome_iff_exists.mp hsome
    refine ⟨r, hr, ?_⟩
    have := List.find?_some hr
    simpa using this
  · intro hnone
    rw [ClassTree.get_subclass_from_name, List.find?_eq_none]
    intro i hi
    simpa using hnone i hi

/-- Witness for C8 on a concrete two-level hierarchy: "openvizsla" is
found and "OpenVizsla" (different case) is not. -/
theorem C8_get_subclass_from_name_witness :
    ((∀ r, (ClassTree.node ⟨0, none⟩
        [ClassTree.node ⟨1, some "openvizsla"⟩ []]).get_subclass_from_name
          "OpenVizsla" = some r →
        r ∈ (ClassTree.node ⟨0, none⟩
          [ClassTree.node ⟨1, some "openvizsla"⟩ []]).all_named_subclasses ∧
        r.ui_name = some "OpenVizsla") ∧
    ((∃ i ∈ (ClassTree.node ⟨0, none⟩
        [ClassTree.node ⟨1, some "openvizsla"⟩ []]).all_named_subclasses,
        i.ui_name = some "OpenVizsla") →
        ∃ r, (ClassTree.node ⟨0, none⟩
          [ClassTree.node ⟨1, some "openvizsla"⟩ []]).get_subclass_from_name
            "OpenVizsla" = some r ∧ r.ui_name = some "OpenVizsla") ∧
    ((∀ i ∈ (ClassTree.node ⟨0, none⟩
        [ClassTree.node ⟨1, some "openvizsla"⟩ []]).all_named_subclasses,
        i.ui_name ≠ some "OpenVizsla") →
        (ClassTree.node ⟨0, none⟩
          [ClassTree.node ⟨1, some "openvizsla"⟩ []]).get_subclass_from_name
            "OpenVizsla" = none)) :=
  C8_get_subclass_from_name
    (ClassTree.node ⟨0, none⟩ [ClassTree.node ⟨1, some "openvizsla"⟩ []])
    "OpenVizsla"

mutual

/-- The code's hierarchy walk keeps exactly the truthy-named transitive
subclasses. -/
theorem namedDescendants_eq_filter (c : ClassTree) :
    c.namedDescendants
      = c.descendantInfos.filter (fun i => truthyName i.ui_name) := by
  obtain ⟨info, children⟩ := c
  rw [ClassTree.namedDescendants, ClassTree.descendantInfos]
  exact namedDescendantsOf_eq_filter children

/-- List version of `namedDescendants_eq_filter`. -/
theorem namedDescendantsOf_eq_filter (ts : List ClassTree) :
    namedDescendantsOf ts
      = (descendantInfosOf ts).filter (fun i => truthyName i.ui_name) := by
  cases ts with
  | nil => rfl
  | cons t ts1 =>
      rw [namedDescendantsOf, descendantInfosOf, List.filter_cons,
        List.filter_append, namedDescendants_eq_filter t,
        namedDescendantsOf_eq_filter ts1]
      by_cases h : truthyName t.info.ui_name
      · simp [h]
      · simp [h]

end

/-- C9: discovery returns exactly the transitive subclasses (any depth)
of the role class whose `UI_NAME` is a truthy (defined, non-empty) name,
each appearing at most once. -/
theorem C9_all_named_subclasses (c : ClassTree) :
    (∀ i, i ∈ c.all_named_subclasses ↔
        (i ∈ c.descendantInfos ∧ truthyName i.ui_name = true)) ∧
    c.all_named_subclasses.Nodup := by
  refine ⟨?_, List.nodup_dedup _⟩
  intro i
  rw [ClassTree.all_named_subclasses, List.mem_dedup,
    namedDescendants_eq_filter, List.mem_filter]

/-- C10: `set_up_ipc` stores exactly the given queue and termination
event; with `stdin = None` every other frontend attribute and the global
`sys.stdin` are unchanged, and with a truthy `stdin` that stream is
assigned to both `self.stdin` and `sys.stdin`. -/
theorem C10_set_up_ipc (st : FrontendState) (g : GlobalState) (dq te : Nat) :
    (ViewSBFrontend.set_up_ipc st g dq te none
      = ({ st with data_queue := some dq, termination_event := some te }, g)) ∧
    (∀ s, ViewSBFrontend.set_up_ipc st g dq te (some s)
      = ({ st with data_queue := some dq, termination_event := some te, stdin := some s }, { g with sys_stdin := s })) :=
  ⟨rfl, fun _ => rfl⟩

end ViewSB
